import Mathlib

/-!
# Verification of the smartstatback thermostat integration layer

Shallow embedding of the vendor thermostat clients
(`src/api/thermostat_clients/`), the client factory and the credential
resolver (`src/api/thermostat_api_extension.py`).

Modelling conventions:
* JSON values are the inductive `Json`; Python `None` and JSON `null`
  both map to `Json.null`.  `dict.get(k)` collapses an absent key and a
  stored `null` to the same observable value (Python `None`), which the
  lookup helpers mirror.
* Numbers are `ℚ` (the code only adds, subtracts, multiplies and
  divides temperatures and seconds).  Time is seconds as `ℚ`; a call
  receives one `now` value (the code reads the wall clock within a
  single call, where sub-call drift is not observable by any claim).
* Outbound HTTP is an oracle `net : Request → NetResult`; each client
  operation also returns the list of requests it issued, in order, so
  "performs zero / exactly one network call" is statable.  A raised
  network exception is `NetResult.exn`; the `requests` helpers never
  return control flow past a raise, matching the `try/except` blocks.
* A Python `raise` that escapes a method is `Except.error msg`;
  methods that can only return normally are plain functions.
* Python truthiness of credential/token values is `pyTruthy`.
-/

/-- A JSON value (also standing for the Python objects `json.loads` builds). -/
inductive Json where
  | null : Json
  | bool (b : Bool) : Json
  | num (q : ℚ) : Json
  | str (s : String) : Json
  | arr (xs : List Json) : Json
  | obj (fields : List (String × Json)) : Json

namespace Json

/-- Association-list lookup on an object's fields (first match). -/
def lookupField : List (String × Json) → String → Option Json
  | [], _ => none
  | (k, v) :: rest, key => if k = key then some v else lookupField rest key

end Json

/-- Python truthiness of a JSON value (`None`, `False`, `0`, `""`, `[]`, `{}` are falsy). -/
def pyTruthy : Json → Bool
  | Json.null => false
  | Json.bool b => b
  | Json.num q => q ≠ 0
  | Json.str s => s ≠ ""
  | Json.arr xs => !xs.isEmpty
  | Json.obj fs => !fs.isEmpty

/-- Truthiness of an optional value (`none` is Python `None`, falsy). -/
def pyTruthyOpt : Option Json → Bool
  | none => false
  | some v => pyTruthy v

/-- Truthiness of an optional string argument (such as `auth_code=None`). -/
def pyTruthyStr : Option String → Bool
  | none => false
  | some s => s ≠ ""

/-- Python `j == "s"` for a JSON value against a string literal: true only
when `j` is that string. -/
def isStr (j : Json) (s : String) : Bool :=
  match j with
  | Json.str t => t == s
  | _ => false

/-- `d.get(k)`: raises (error) when the receiver is not a dict; an absent
key and a stored `null` both give Python `None`, modelled as `none`. -/
def jGet (j : Json) (k : String) : Except String (Option Json) :=
  match j with
  | Json.obj fs =>
    match Json.lookupField fs k with
    | none => Except.ok none
    | some Json.null => Except.ok none
    | some v => Except.ok (some v)
  | _ => Except.error "AttributeError: get"

/-- `d.get(k, default)`: raises when the receiver is not a dict; the default
is used only when the key is absent (a stored `null` is returned as such). -/
def jGetD (j : Json) (k : String) (d : Json) : Except String Json :=
  match j with
  | Json.obj fs =>
    match Json.lookupField fs k with
    | none => Except.ok d
    | some v => Except.ok v
  | _ => Except.error "AttributeError: get"

/-- Coerce a JSON value into a number the way Python arithmetic does
(`bool` is an `int` subclass; anything else raises in `* 9 / 5` or
`timedelta(seconds=...)`). -/
def jNum (j : Json) : Except String ℚ :=
  match j with
  | Json.num q => Except.ok q
  | Json.bool b => Except.ok (if b then 1 else 0)
  | _ => Except.error "TypeError: not a number"

/-- Python `str(x)` as used in f-string URL interpolation.  Container and
numeric reprs are abstracted to fixed markers: no claim distinguishes URLs
built from non-string, non-`None` fields. -/
def pyStr : Option Json → String
  | none => "None"
  | some Json.null => "None"
  | some (Json.str s) => s
  | some (Json.bool b) => if b then "True" else "False"
  | some (Json.num _) => "<num>"
  | some (Json.arr _) => "<list>"
  | some (Json.obj _) => "<dict>"

/-- An outbound HTTP request as the clients build one: method, URL and the
JSON/form payload (headers carry only the bearer token and content type,
which no claim observes). -/
structure Request where
  method : String
  url : String
  body : Json

/-- What the network oracle answers: a raised exception (connection error,
timeout, unparseable body) or a response with a status code and JSON body. -/
inductive NetResult where
  | exn (msg : String) : NetResult
  | resp (code : Nat) (body : Json) : NetResult

/-- `response.status_code == 200` for a POST whose response body is unused;
a raised exception is caught by the surrounding `except` and gives `False`. -/
def postOk (net : Request → NetResult) (req : Request) : Bool :=
  match net req with
  | NetResult.exn _ => false
  | NetResult.resp code _ => code == 200

/-! ## NestClient (`src/api/thermostat_clients/nest_client.py`) -/

/-- In-memory state of a `NestClient` instance: constructor kwargs plus the
token cache.  Credential fields hold whatever JSON value the resolver
extracted (Python `None` is `none`). -/
structure NestClient where
  client_id : Option Json
  client_secret : Option Json
  redirect_uri : Option Json
  project_id : Option Json
  access_token : Option Json
  refresh_token : Option Json
  token_expiry : Option ℚ

namespace NestClient

def baseUrl : String := "https://smartdevicemanagement.googleapis.com/v1"

/-- `self.access_token and self.token_expiry and datetime.now() < self.token_expiry`
(a datetime object is always truthy, so the middle conjunct is `isSome`). -/
def cachedTokenValid (now : ℚ) (c : NestClient) : Bool :=
  pyTruthyOpt c.access_token &&
    (match c.token_expiry with
     | some e => decide (now < e)
     | none => false)

/-- The token-refresh POST built by `_refresh_access_token`. -/
def refreshRequest (c : NestClient) : Request :=
  { method := "POST"
    url := "https://oauth2.googleapis.com/token"
    body := Json.obj
      [("client_id", (c.client_id).getD Json.null),
       ("client_secret", (c.client_secret).getD Json.null),
       ("refresh_token", (c.refresh_token).getD Json.null),
       ("grant_type", Json.str "refresh_token")] }

/-- The auth-code exchange POST built by `_exchange_auth_code`. -/
def exchangeRequest (c : NestClient) (auth_code : String) : Request :=
  { method := "POST"
    url := "https://oauth2.googleapis.com/token"
    body := Json.obj
      [("client_id", (c.client_id).getD Json.null),
       ("client_secret", (c.client_secret).getD Json.null),
       ("code", Json.str auth_code),
       ("grant_type", Json.str "authorization_code"),
       ("redirect_uri", (c.redirect_uri).getD Json.null)] }

/-- `token_data.get("expires_in", 3600)` followed by `timedelta(seconds=...)`. -/
def expiresInOf (body : Json) : Except String ℚ := do
  let v ← jGetD body "expires_in" (Json.num 3600)
  jNum v

/-- `_refresh_access_token`: one POST; on HTTP 200 store the new access
token, then the new expiry, and return `bool(access_token)`; any raise
inside the `try` is caught after the assignments made so far, giving
`False`.  Returns (result, new state, issued requests). -/
def refreshAccessToken (net : Request → NetResult) (now : ℚ) (c : NestClient) :
    Bool × NestClient × List Request :=
  match net (refreshRequest c) with
  | NetResult.exn _ => (false, c, [refreshRequest c])
  | NetResult.resp code body =>
    if code = 200 then
      match jGet body "access_token" with
      | Except.error _ => (false, c, [refreshRequest c])
      | Except.ok tok =>
        match expiresInOf body with
        | Except.error _ => (false, { c with access_token := tok }, [refreshRequest c])
        | Except.ok ei =>
          (pyTruthyOpt tok,
           { c with access_token := tok, token_expiry := some (now + ei) },
           [refreshRequest c])
    else (false, c, [refreshRequest c])

/-- `_exchange_auth_code`: one POST; on HTTP 200 store access token, refresh
token, then expiry (default 3600s) and return `bool(access_token)`. -/
def exchangeAuthCode (net : Request → NetResult) (now : ℚ) (c : NestClient)
    (auth_code : String) : Bool × NestClient × List Request :=
  match net (exchangeRequest c auth_code) with
  | NetResult.exn _ => (false, c, [exchangeRequest c auth_code])
  | NetResult.resp code body =>
    if code = 200 then
      match jGet body "access_token" with
      | Except.error _ => (false, c, [exchangeRequest c auth_code])
      | Except.ok tok =>
        match jGet body "refresh_token" with
        | Except.error _ =>
          (false, { c with access_token := tok }, [exchangeRequest c auth_code])
        | Except.ok rtok =>
          match expiresInOf body with
          | Except.error _ =>
            (false, { c with access_token := tok, refresh_token := rtok },
             [exchangeRequest c auth_code])
          | Except.ok ei =>
            (pyTruthyOpt tok,
             { c with access_token := tok, refresh_token := rtok,
                      token_expiry := some (now + ei) },
             [exchangeRequest c auth_code])
    else (false, c, [exchangeRequest c auth_code])

/-- `NestClient.authenticate(auth_code=None)`: valid cached token → `True`
with no request; else refresh token → `_refresh_access_token`; else auth
code → `_exchange_auth_code`; else `False`. -/
def authenticate (net : Request → NetResult) (now : ℚ) (c : NestClient)
    (auth_code : Option String) : Bool × NestClient × List Request :=
  if cachedTokenValid now c then (true, c, [])
  else if pyTruthyOpt c.refresh_token then refreshAccessToken net now c
  else if pyTruthyStr auth_code then exchangeAuthCode net now c (auth_code.getD "")
  else (false, c, [])

/-- `_fahrenheit_to_celsius`: `(fahrenheit - 32) * 5 / 9`. -/
def fahrenheitToCelsius (fahrenheit : ℚ) : ℚ :=
  (fahrenheit - 32) * 5 / 9

/-- `_celsius_to_fahrenheit`: `(celsius * 9 / 5) + 32`. -/
def celsiusToFahrenheit (celsius : ℚ) : ℚ :=
  celsius * 9 / 5 + 32

/-- `_map_nest_mode_to_standard`: `{HEAT, COOL, HEATCOOL, OFF}` to standard
vocabulary, anything else defaulting to `"heat"`. -/
def mapNestModeToStandard (nest_mode : Json) : String :=
  if isStr nest_mode "HEAT" then "heat"
  else if isStr nest_mode "COOL" then "cool"
  else if isStr nest_mode "HEATCOOL" then "auto"
  else if isStr nest_mode "OFF" then "off"
  else "heat"

/-- `_map_standard_mode_to_nest` (`mode.lower()` then lookup, default `HEAT`). -/
def mapStandardModeToNest (mode : String) : String :=
  if mode.toLower = "heat" then "HEAT"
  else if mode.toLower = "cool" then "COOL"
  else if mode.toLower = "auto" then "HEATCOOL"
  else if mode.toLower = "off" then "OFF"
  else "HEAT"

end NestClient

/-- The normalized status dict every vendor response is translated into.
Temperatures are the stored dict values (`None` is `none`); the Nest client
stores converted Fahrenheit numbers, the Pioneer client the raw vendor
fields.  `raw_data` carries the raw response body, as the source includes
it. -/
structure NormalizedStatus where
  temperature : Option Json
  target_temperature : Option Json
  mode : String
  fan_mode : String
  is_online : Json
  humidity : Option Json
  raw_data : Json

namespace NestClient

/-- `data.get("traits", {})`. -/
def traitsOf (data : Json) : Except String Json :=
  jGetD data "traits" (Json.obj [])

/-- `traits.get("sdm.devices.traits.Temperature", {}).get("ambientTemperatureCelsius")`. -/
def ambientOf (data : Json) : Except String (Option Json) := do
  let traits ← traitsOf data
  let temperature_trait ← jGetD traits "sdm.devices.traits.Temperature" (Json.obj [])
  jGet temperature_trait "ambientTemperatureCelsius"

/-- `traits.get("sdm.devices.traits.ThermostatMode", {}).get("mode", "HEAT")`. -/
def modeOf (data : Json) : Except String Json := do
  let traits ← traitsOf data
  let thermostat_mode_trait ← jGetD traits "sdm.devices.traits.ThermostatMode" (Json.obj [])
  jGetD thermostat_mode_trait "mode" (Json.str "HEAT")

/-- The mode-dependent `target_temp_c`: heat reads the heat setpoint, cool
the cool setpoint, heat-cool averages both (missing sides default to 0),
any other mode leaves it `None`. -/
def targetTempCOf (data : Json) : Except String (Option Json) := do
  let traits ← traitsOf data
  let mode ← modeOf data
  let setpoint ← jGetD traits "sdm.devices.traits.ThermostatTemperatureSetpoint" (Json.obj [])
  if isStr mode "HEAT" then jGet setpoint "heatCelsius"
  else if isStr mode "COOL" then jGet setpoint "coolCelsius"
  else if isStr mode "HEATCOOL" then do
    let h ← jGetD setpoint "heatCelsius" (Json.num 0)
    let cl ← jGetD setpoint "coolCelsius" (Json.num 0)
    let hq ← jNum h
    let cq ← jNum cl
    Except.ok (some (Json.num ((hq + cq) / 2)))
  else Except.ok none

/-- `traits.get("sdm.devices.traits.Fan", {}).get("timerMode", "OFF")`. -/
def fanTimerOf (data : Json) : Except String Json := do
  let traits ← traitsOf data
  let fan_trait ← jGetD traits "sdm.devices.traits.Fan" (Json.obj [])
  jGetD fan_trait "timerMode" (Json.str "OFF")

/-- `traits.get("sdm.devices.traits.Humidity", {}).get("ambientHumidityPercent")`. -/
def humidityOf (data : Json) : Except String (Option Json) := do
  let traits ← traitsOf data
  let humidity_trait ← jGetD traits "sdm.devices.traits.Humidity" (Json.obj [])
  jGet humidity_trait "ambientHumidityPercent"

/-- `self._celsius_to_fahrenheit(x) if x else None`: a falsy Celsius value
(`None`, and notably `0`) yields `None`; a truthy non-numeric one raises. -/
def convertIfTruthy (x : Option Json) : Except String (Option Json) :=
  match x with
  | none => Except.ok none
  | some v =>
    if pyTruthy v then do
      let q ← jNum v
      Except.ok (some (Json.num (celsiusToFahrenheit q)))
    else Except.ok none

/-- The `"temperature"` entry: the guarded conversion of the ambient
Celsius reading. -/
def temperatureOf (data : Json) : Except String (Option Json) :=
  match ambientOf data with
  | Except.error e => Except.error e
  | Except.ok a => convertIfTruthy a

/-- The `"target_temperature"` entry: the guarded conversion of the
mode-dependent target setpoint. -/
def targetTemperatureOf (data : Json) : Except String (Option Json) :=
  match targetTempCOf data with
  | Except.error e => Except.error e
  | Except.ok tg => convertIfTruthy tg

/-- The body of `get_status`'s `try` block after a 200 response: build the
normalized status dict from the device payload.  Any error here is caught
by the source's `except`, which turns the whole call into `None` (the
source evaluates every field access unconditionally, so the set of erroring
payloads does not depend on evaluation order). -/
def parseStatus (data : Json) : Except String NormalizedStatus :=
  match temperatureOf data with
  | Except.error e => Except.error e
  | Except.ok temperature =>
    match targetTemperatureOf data with
    | Except.error e => Except.error e
    | Except.ok target_temperature =>
      match modeOf data with
      | Except.error e => Except.error e
      | Except.ok mode =>
        match fanTimerOf data with
        | Except.error e => Except.error e
        | Except.ok fan_timer_mode =>
          match humidityOf data with
          | Except.error e => Except.error e
          | Except.ok humidity =>
            Except.ok
              { temperature := temperature
                target_temperature := target_temperature
                mode := mapNestModeToStandard mode
                fan_mode := if isStr fan_timer_mode "ON" then "on" else "auto"
                is_online := Json.bool true
                humidity := humidity
                raw_data := data }

/-- The device-resource GET issued by `get_status`. -/
def deviceGetRequest (c : NestClient) (device_id : String) : Request :=
  { method := "GET"
    url := baseUrl ++ "/enterprises/" ++ pyStr c.project_id ++ "/devices/" ++ device_id
    body := Json.null }

/-- `NestClient.get_status`: raises (`Except.error`) when `authenticate()`
returns `False`; otherwise one GET, returning the parsed status on a 200
response and `None` on a non-200, a network error, or a payload the
`try` block chokes on. -/
def getStatus (net : Request → NetResult) (now : ℚ) (c : NestClient)
    (device_id : String) :
    Except String (NestClient × List Request × Option NormalizedStatus) :=
  match authenticate net now c none with
  | (false, _, _) => Except.error "Not authenticated"
  | (true, c1, log1) =>
    match net (deviceGetRequest c1 device_id) with
    | NetResult.exn _ => Except.ok (c1, log1 ++ [deviceGetRequest c1 device_id], none)
    | NetResult.resp code body =>
      if code = 200 then
        match parseStatus body with
        | Except.error _ => Except.ok (c1, log1 ++ [deviceGetRequest c1 device_id], none)
        | Except.ok st => Except.ok (c1, log1 ++ [deviceGetRequest c1 device_id], some st)
      else Except.ok (c1, log1 ++ [deviceGetRequest c1 device_id], none)

/-- The `:executeCommand` POST with a given payload. -/
def commandRequest (c : NestClient) (device_id : String) (payload : Json) : Request :=
  { method := "POST"
    url := baseUrl ++ "/enterprises/" ++ pyStr c.project_id ++ "/devices/" ++ device_id
      ++ ":executeCommand"
    body := payload }

/-- Heat-mode payload: `SetHeat` with a single `heatCelsius`. -/
def setHeatPayload (heatCelsius : ℚ) : Json :=
  Json.obj
    [("command", Json.str "sdm.devices.commands.ThermostatTemperatureSetpoint.SetHeat"),
     ("params", Json.obj [("heatCelsius", Json.num heatCelsius)])]

/-- Cool-mode payload: `SetCool` with a single `coolCelsius`. -/
def setCoolPayload (coolCelsius : ℚ) : Json :=
  Json.obj
    [("command", Json.str "sdm.devices.commands.ThermostatTemperatureSetpoint.SetCool"),
     ("params", Json.obj [("coolCelsius", Json.num coolCelsius)])]

/-- Auto-mode payload: `SetRange` with both setpoints. -/
def setRangePayload (heatCelsius coolCelsius : ℚ) : Json :=
  Json.obj
    [("command", Json.str "sdm.devices.commands.ThermostatTemperatureSetpoint.SetRange"),
     ("params", Json.obj
        [("heatCelsius", Json.num heatCelsius),
         ("coolCelsius", Json.num coolCelsius)])]

/-- `NestClient.set_temperature`: raises when unauthenticated; pre-fetches
status (whose own raise propagates), aborts with `False` on a `None`
pre-fetch; then per current mode issues a single setpoint command
(`heat`/`cool`), a `±1.1 °C` range (`auto`), or nothing (`False`). -/
def setTemperature (net : Request → NetResult) (now : ℚ) (c : NestClient)
    (device_id : String) (temperature : ℚ) :
    Except String (Bool × NestClient × List Request) :=
  match authenticate net now c none with
  | (false, _, _) => Except.error "Not authenticated"
  | (true, c1, log1) =>
    match getStatus net now c1 device_id with
    | Except.error e => Except.error e
    | Except.ok (c2, log2, none) => Except.ok (false, c2, log1 ++ log2)
    | Except.ok (c2, log2, some status) =>
      if status.mode = "heat" then
        Except.ok
          (postOk net (commandRequest c2 device_id
             (setHeatPayload (fahrenheitToCelsius temperature))), c2,
           log1 ++ log2 ++ [commandRequest c2 device_id
             (setHeatPayload (fahrenheitToCelsius temperature))])
      else if status.mode = "cool" then
        Except.ok
          (postOk net (commandRequest c2 device_id
             (setCoolPayload (fahrenheitToCelsius temperature))), c2,
           log1 ++ log2 ++ [commandRequest c2 device_id
             (setCoolPayload (fahrenheitToCelsius temperature))])
      else if status.mode = "auto" then
        Except.ok
          (postOk net (commandRequest c2 device_id
             (setRangePayload (fahrenheitToCelsius temperature - 11/10)
               (fahrenheitToCelsius temperature + 11/10))), c2,
           log1 ++ log2 ++ [commandRequest c2 device_id
             (setRangePayload (fahrenheitToCelsius temperature - 11/10)
               (fahrenheitToCelsius temperature + 11/10))])
      else Except.ok (false, c2, log1 ++ log2)

end NestClient

/-! ## PioneerClient (`src/api/thermostat_clients/pioneer_client.py`) -/

/-- In-memory state of a `PioneerClient` instance. -/
structure PioneerClient where
  username : Option Json
  password : Option Json
  device_key : Option Json
  token : Option Json
  token_expiry : Option ℚ

namespace PioneerClient

def baseUrl : String := "https://api.pioneerminisplit.com/api"

/-- `self.token and self.token_expiry and datetime.now() < self.token_expiry`. -/
def cachedTokenValid (now : ℚ) (c : PioneerClient) : Bool :=
  pyTruthyOpt c.token &&
    (match c.token_expiry with
     | some e => decide (now < e)
     | none => false)

/-- The username/password POST to `/auth`. -/
def authRequest (c : PioneerClient) : Request :=
  { method := "POST"
    url := baseUrl ++ "/auth"
    body := Json.obj
      [("username", (c.username).getD Json.null),
       ("password", (c.password).getD Json.null)] }

/-- `auth_data.get("expires_in", 86400)` then `timedelta(seconds=...)`. -/
def expiresInOf (body : Json) : Except String ℚ := do
  let v ← jGetD body "expires_in" (Json.num 86400)
  jNum v

/-- `PioneerClient.authenticate`: valid cached token → `True`, no request;
else a device key becomes the token with a 30-day expiry, no request; else
without both username and password → `False`; else one POST, caching the
returned token (24h default expiry) and returning `bool(token)`. -/
def authenticate (net : Request → NetResult) (now : ℚ) (c : PioneerClient) :
    Bool × PioneerClient × List Request :=
  if cachedTokenValid now c then (true, c, [])
  else if pyTruthyOpt c.device_key then
    (true, { c with token := c.device_key, token_expiry := some (now + 30 * 86400) }, [])
  else if !pyTruthyOpt c.username || !pyTruthyOpt c.password then (false, c, [])
  else
    match net (authRequest c) with
    | NetResult.exn _ => (false, c, [authRequest c])
    | NetResult.resp code body =>
      if code = 200 then
        match jGet body "token" with
        | Except.error _ => (false, c, [authRequest c])
        | Except.ok tok =>
          match expiresInOf body with
          | Except.error _ => (false, { c with token := tok }, [authRequest c])
          | Except.ok ei =>
            (pyTruthyOpt tok,
             { c with token := tok, token_expiry := some (now + ei) },
             [authRequest c])
      else (false, c, [authRequest c])

/-- The device-status GET issued by `get_status`. -/
def statusRequest (device_id : String) : Request :=
  { method := "GET"
    url := baseUrl ++ "/devices/" ++ device_id ++ "/status"
    body := Json.null }

/-- `data.get("mode", "heat").lower()` / `data.get("fan_mode", "auto").lower()`:
`.lower()` raises on a non-string. -/
def jLower (j : Json) : Except String String :=
  match j with
  | Json.str s => Except.ok s.toLower
  | _ => Except.error "AttributeError: lower"

/-- The body of Pioneer `get_status`'s `try` block after a 200 response:
flat field map onto the normalized schema. -/
def parseStatus (data : Json) : Except String NormalizedStatus := do
  let temperature ← jGet data "current_temperature"
  let target_temperature ← jGet data "target_temperature"
  let modeJ ← jGetD data "mode" (Json.str "heat")
  let mode ← jLower modeJ
  let fanJ ← jGetD data "fan_mode" (Json.str "auto")
  let fan_mode ← jLower fanJ
  let is_online ← jGetD data "is_online" (Json.bool true)
  let humidity ← jGet data "humidity"
  Except.ok
    { temperature := temperature
      target_temperature := target_temperature
      mode := mode
      fan_mode := fan_mode
      is_online := is_online
      humidity := humidity
      raw_data := data }

/-- `PioneerClient.get_status`: raises when `authenticate()` returns
`False`; otherwise one GET, `None` on any failure. -/
def getStatus (net : Request → NetResult) (now : ℚ) (c : PioneerClient)
    (device_id : String) :
    Except String (PioneerClient × List Request × Option NormalizedStatus) :=
  match authenticate net now c with
  | (false, _, _) => Except.error "Not authenticated"
  | (true, c1, log1) =>
    match net (statusRequest device_id) with
    | NetResult.exn _ => Except.ok (c1, log1 ++ [statusRequest device_id], none)
    | NetResult.resp code body =>
      if code = 200 then
        match parseStatus body with
        | Except.error _ => Except.ok (c1, log1 ++ [statusRequest device_id], none)
        | Except.ok st => Except.ok (c1, log1 ++ [statusRequest device_id], some st)
      else Except.ok (c1, log1 ++ [statusRequest device_id], none)

end PioneerClient

/-! ## CieloClient -/

/-- Modelled from the spec: `cielo_client.py` is imported by the factory but
is not under `src/`; §4.1's token-based variant says its constructor takes
`username`, `password` and a pre-supplied static `token`, with an empty
session created at construction. -/
structure CieloClient where
  username : Option Json
  password : Option Json
  token : Option Json
  token_expiry : Option ℚ

/-! ## ThermostatClientFactory (`src/api/thermostat_clients/client_factory.py`) -/

/-- The sealed set of client variants the factory can build. -/
inductive ThermostatClient where
  | nest (c : NestClient) : ThermostatClient
  | cielo (c : CieloClient) : ThermostatClient
  | pioneer (c : PioneerClient) : ThermostatClient

/-- `kwargs.get(k)` on the factory's keyword dict: absent and `null`-valued
keys both give Python `None`. -/
def kwGet (kwargs : List (String × Json)) (k : String) : Option Json :=
  match Json.lookupField kwargs k with
  | none => none
  | some Json.null => none
  | some v => some v

namespace ThermostatClientFactory

/-- `ThermostatClientFactory.create_client`: a pure tag dispatch; unknown
tags raise `ValueError("Unsupported thermostat type: ...")`. -/
def createClient (thermostat_type : String) (kwargs : List (String × Json)) :
    Except String ThermostatClient :=
  if thermostat_type = "NEST" then
    Except.ok (ThermostatClient.nest
      { client_id := kwGet kwargs "client_id"
        client_secret := kwGet kwargs "client_secret"
        redirect_uri := kwGet kwargs "redirect_uri"
        project_id := kwGet kwargs "project_id"
        access_token := kwGet kwargs "access_token"
        refresh_token := kwGet kwargs "refresh_token"
        token_expiry := none })
  else if thermostat_type = "CIELO" then
    Except.ok (ThermostatClient.cielo
      { username := kwGet kwargs "username"
        password := kwGet kwargs "password"
        token := kwGet kwargs "token"
        token_expiry := none })
  else if thermostat_type = "PIONEER" then
    Except.ok (ThermostatClient.pioneer
      { username := kwGet kwargs "username"
        password := kwGet kwargs "password"
        device_key := kwGet kwargs "device_key"
        token := none
        token_expiry := none })
  else Except.error ("Unsupported thermostat type: " ++ thermostat_type)

end ThermostatClientFactory

/-! ## Credential resolver (`src/api/thermostat_api_extension.py`, `_get_client_kwargs`) -/

/-- `getattr(settings, name, default)`: Django settings modelled as a partial
map from attribute names to values; a configured attribute wins even when
its value is `None` (`Json.null`). -/
def settingsGet (settings : List (String × Json)) (name : String) : Option Json :=
  Json.lookupField settings name

/-- `credentials.get(k)` where the result is passed on as a kwarg value:
an absent key is Python `None`, carried as `Json.null`.  Raises when
`credentials` is not a dict (`json.loads` returned a non-object). -/
def credGet (credentials : Json) (k : String) : Except String Json :=
  match credentials with
  | Json.obj fs =>
    match Json.lookupField fs k with
    | none => Except.ok Json.null
    | some v => Except.ok v
  | _ => Except.error "AttributeError: get"

/-- `getattr(settings, name, credentials.get(k))`. -/
def settingsOrCred (settings : List (String × Json)) (name : String)
    (credentials : Json) (k : String) : Except String Json :=
  match settingsGet settings name with
  | some v => Except.ok v
  | none => credGet credentials k

/-- `_get_client_kwargs`: parse the stored `api_key` as JSON when it is
truthy, falling back to `{"token": api_key}` on a parse failure; then pick
the per-vendor kwargs, letting configured settings win for the shared
OAuth secrets.  `jsonLoads` is the `json.loads` oracle (`none` means a
`JSONDecodeError`). -/
def getClientKwargs (settings : List (String × Json))
    (jsonLoads : String → Option Json) (thermostat_type : String)
    (api_key : Option String) : Except String (List (String × Json)) := do
  let credentials : Json :=
    if pyTruthyStr api_key then
      match jsonLoads (api_key.getD "") with
      | some j => j
      | none => Json.obj [("token", Json.str (api_key.getD ""))]
    else Json.obj []
  if thermostat_type = "NEST" then do
    let client_id ← settingsOrCred settings "NEST_CLIENT_ID" credentials "client_id"
    let client_secret ← settingsOrCred settings "NEST_CLIENT_SECRET" credentials "client_secret"
    let redirect_uri ← settingsOrCred settings "NEST_REDIRECT_URI" credentials "redirect_uri"
    let project_id ← settingsOrCred settings "NEST_PROJECT_ID" credentials "project_id"
    let access_token ← credGet credentials "access_token"
    let refresh_token ← credGet credentials "refresh_token"
    Except.ok
      [("client_id", client_id), ("client_secret", client_secret),
       ("redirect_uri", redirect_uri), ("project_id", project_id),
       ("access_token", access_token), ("refresh_token", refresh_token)]
  else if thermostat_type = "CIELO" then do
    let username ← credGet credentials "username"
    let password ← credGet credentials "password"
    let token ← credGet credentials "token"
    Except.ok [("username", username), ("password", password), ("token", token)]
  else if thermostat_type = "PIONEER" then do
    let username ← credGet credentials "username"
    let password ← credGet credentials "password"
    let device_key ← credGet credentials "device_key"
    Except.ok [("username", username), ("password", password), ("device_key", device_key)]
  else Except.ok []

/-! ## Theorems -/

/-- Helper: a valid cached token short-circuits `NestClient.authenticate`. -/
theorem NestClient.authenticate_of_cached (net : Request → NetResult) (now : ℚ)
    (c : NestClient) (auth_code : Option String)
    (h : NestClient.cachedTokenValid now c = true) :
    NestClient.authenticate net now c auth_code = (true, c, []) := by
  unfold NestClient.authenticate
  rw [h]
  simp

/-- Helper: `get_status` under a valid cached token is one GET whose outcome
is decided by the network answer and the parse. -/
theorem NestClient.getStatus_of_cached (net : Request → NetResult) (now : ℚ)
    (c : NestClient) (device_id : String)
    (h : NestClient.cachedTokenValid now c = true) :
    NestClient.getStatus net now c device_id =
      match net (NestClient.deviceGetRequest c device_id) with
      | NetResult.exn _ =>
        Except.ok (c, [NestClient.deviceGetRequest c device_id], none)
      | NetResult.resp code body =>
        if code = 200 then
          match NestClient.parseStatus body with
          | Except.error _ =>
            Except.ok (c, [NestClient.deviceGetRequest c device_id], none)
          | Except.ok st =>
            Except.ok (c, [NestClient.deviceGetRequest c device_id], some st)
        else Except.ok (c, [NestClient.deviceGetRequest c device_id], none) := by
  unfold NestClient.getStatus
  rw [NestClient.authenticate_of_cached net now c none h]
  cases hN : net (NestClient.deviceGetRequest c device_id) with
  | exn m => simp [hN]
  | resp code body =>
    by_cases hc : code = 200
    · subst hc
      cases hP : NestClient.parseStatus body with
      | error e => simp [hN, hP]
      | ok st => simp [hN, hP]
    · simp [hN, hc]

/-- Claim C8: converting any temperature Fahrenheit→Celsius and back
Celsius→Fahrenheit lands within 0.1 degrees of the input (the composite is
in fact the identity over the rationals). -/
theorem temperature_roundtrip_within_tenth (t : ℚ) :
    |NestClient.celsiusToFahrenheit (NestClient.fahrenheitToCelsius t) - t| ≤ 1/10 := by
  unfold NestClient.celsiusToFahrenheit NestClient.fahrenheitToCelsius
  have h : (t - 32) * 5 / 9 * 9 / 5 + 32 - t = 0 := by ring
  rw [h]
  norm_num

/-- Claim C3: with a truthy cached access token and the current time
strictly before the stored expiry, `NestClient.authenticate` returns `True`,
issues no network request, and leaves every session field unchanged. -/
theorem nest_authenticate_cached_no_network (net : Request → NetResult) (now : ℚ)
    (c : NestClient) (auth_code : Option String) (e : ℚ)
    (h1 : pyTruthyOpt c.access_token = true) (h2 : c.token_expiry = some e)
    (h3 : now < e) :
    NestClient.authenticate net now c auth_code = (true, c, []) := by
  have hc : NestClient.cachedTokenValid now c = true := by
    unfold NestClient.cachedTokenValid
    rw [h1, h2]
    simp [h3]
  unfold NestClient.authenticate
  rw [hc]
  simp

/-- Witness for C3: a client holding token `"tok"` with expiry 100 at time 0
authenticates with zero requests against a dead network. -/
theorem nest_authenticate_cached_no_network_witness :
    pyTruthyOpt (some (Json.str "tok")) = true ∧ ((0 : ℚ) < 100) ∧
    NestClient.authenticate (fun _ => NetResult.exn "network down") 0
      ⟨none, none, none, none, some (Json.str "tok"), none, some 100⟩ none
      = (true, ⟨none, none, none, none, some (Json.str "tok"), none, some 100⟩, []) :=
  ⟨rfl, by norm_num,
    nest_authenticate_cached_no_network (fun _ => NetResult.exn "network down") 0
      ⟨none, none, none, none, some (Json.str "tok"), none, some 100⟩ none 100
      rfl rfl (by norm_num)⟩

/-- Claim C10: `_refresh_access_token` only ever touches `access_token` and
`token_expiry`; the refresh token, client id, client secret, redirect URI
and project id survive every outcome (success, non-200, raised exception,
malformed body) unchanged. -/
theorem nest_refresh_frame (net : Request → NetResult) (now : ℚ) (c : NestClient) :
    (NestClient.refreshAccessToken net now c).2.1.refresh_token = c.refresh_token ∧
    (NestClient.refreshAccessToken net now c).2.1.client_id = c.client_id ∧
    (NestClient.refreshAccessToken net now c).2.1.client_secret = c.client_secret ∧
    (NestClient.refreshAccessToken net now c).2.1.redirect_uri = c.redirect_uri ∧
    (NestClient.refreshAccessToken net now c).2.1.project_id = c.project_id := by
  unfold NestClient.refreshAccessToken
  repeat' split
  all_goals exact ⟨rfl, rfl, rfl, rfl, rfl⟩

/-- Claim C4: with no valid cached token but a truthy refresh token,
`authenticate` issues exactly the one refresh POST; a raised network error
or a non-200 response gives `False` with the state unchanged (no exception
escapes), and a 200 response stores the returned access token and sets the
expiry to `now + expires_in`, where a missing `expires_in` defaults to
3600 seconds via `expiresInOf`. -/
theorem nest_authenticate_refresh_spec (net : Request → NetResult) (now : ℚ)
    (c : NestClient) (auth_code : Option String)
    (hc : NestClient.cachedTokenValid now c = false)
    (hr : pyTruthyOpt c.refresh_token = true) :
    (NestClient.authenticate net now c auth_code).2.2 = [NestClient.refreshRequest c] ∧
    (∀ m, net (NestClient.refreshRequest c) = NetResult.exn m →
      NestClient.authenticate net now c auth_code =
        (false, c, [NestClient.refreshRequest c])) ∧
    (∀ code body, net (NestClient.refreshRequest c) = NetResult.resp code body →
      code ≠ 200 →
      NestClient.authenticate net now c auth_code =
        (false, c, [NestClient.refreshRequest c])) ∧
    (∀ body tok ei, net (NestClient.refreshRequest c) = NetResult.resp 200 body →
      jGet body "access_token" = Except.ok tok →
      NestClient.expiresInOf body = Except.ok ei →
      NestClient.authenticate net now c auth_code =
        (pyTruthyOpt tok,
         { c with access_token := tok, token_expiry := some (now + ei) },
         [NestClient.refreshRequest c])) := by
  have hA : NestClient.authenticate net now c auth_code =
      NestClient.refreshAccessToken net now c := by
    unfold NestClient.authenticate
    rw [hc, hr]
    simp
  refine ⟨?_, ?_, ?_, ?_⟩
  · rw [hA]
    unfold NestClient.refreshAccessToken
    repeat' split
    all_goals rfl
  · intro m hm
    rw [hA]
    unfold NestClient.refreshAccessToken
    rw [hm]
  · intro code body hm hcode
    rw [hA]
    unfold NestClient.refreshAccessToken
    rw [hm]
    simp [hcode]
  · intro body tok ei hm htok hei
    rw [hA]
    unfold NestClient.refreshAccessToken
    rw [hm]
    simp [htok, hei]

/-- Claim C9: a successfully fetched Nest payload whose ambient temperature
is exactly 0 °C, or whose computed target setpoint is exactly 0, reports the
corresponding normalized field as `None` rather than 32 °F: the truthiness
guard around the Celsius→Fahrenheit conversion swallows a zero reading. -/
theorem nest_zero_celsius_is_null (net : Request → NetResult) (now : ℚ)
    (c : NestClient) (device_id : String) (body : Json)
    (h : NestClient.cachedTokenValid now c = true)
    (hr : net (NestClient.deviceGetRequest c device_id) = NetResult.resp 200 body) :
    NestClient.getStatus net now c device_id =
      Except.ok (c, [NestClient.deviceGetRequest c device_id],
        (NestClient.parseStatus body).toOption) ∧
    (∀ st, NestClient.parseStatus body = Except.ok st →
      (NestClient.ambientOf body = Except.ok (some (Json.num 0)) →
        st.temperature = none) ∧
      (NestClient.targetTempCOf body = Except.ok (some (Json.num 0)) →
        st.target_temperature = none)) := by
  constructor
  · rw [NestClient.getStatus_of_cached net now c device_id h, hr]
    cases hP : NestClient.parseStatus body with
    | error e => simp [hP, Except.toOption]
    | ok st => simp [hP, Except.toOption]
  · intro st hst
    unfold NestClient.parseStatus at hst
    cases ht1 : NestClient.temperatureOf body with
    | error e =>
      rw [ht1] at hst
      exact Except.noConfusion
        (show (Except.error e : Except String NormalizedStatus) = Except.ok st from hst)
    | ok temp =>
      rw [ht1] at hst
      cases ht2 : NestClient.targetTemperatureOf body with
      | error e =>
        rw [ht2] at hst
        exact Except.noConfusion
          (show (Except.error e : Except String NormalizedStatus) = Except.ok st from hst)
      | ok tgt =>
        rw [ht2] at hst
        cases hm : NestClient.modeOf body with
        | error e =>
          rw [hm] at hst
          exact Except.noConfusion
            (show (Except.error e : Except String NormalizedStatus) = Except.ok st from hst)
        | ok m =>
          rw [hm] at hst
          cases hf : NestClient.fanTimerOf body with
          | error e =>
            rw [hf] at hst
            exact Except.noConfusion
              (show (Except.error e : Except String NormalizedStatus) = Except.ok st from hst)
          | ok f =>
            rw [hf] at hst
            cases hh : NestClient.humidityOf body with
            | error e =>
              rw [hh] at hst
              exact Except.noConfusion
                (show (Except.error e : Except String NormalizedStatus) = Except.ok st from hst)
            | ok hum =>
              rw [hh] at hst
              have hst2 : Except.ok
                  ({ temperature := temp, target_temperature := tgt,
                     mode := NestClient.mapNestModeToStandard m,
                     fan_mode := if isStr f "ON" then "on" else "auto",
                     is_online := Json.bool true, humidity := hum,
                     raw_data := body } : NormalizedStatus) =
                  Except.ok st := hst
              injection hst2 with h3
              constructor
              · intro hAmb
                have hT : NestClient.temperatureOf body = Except.ok none := by
                  unfold NestClient.temperatureOf
                  rw [hAmb]
                  rfl
                have h6 : Except.ok (ε := String) temp = Except.ok none :=
                  ht1.symm.trans hT
                injection h6 with h5
                rw [← h3]
                exact h5
              · intro hTg
                have hT : NestClient.targetTemperatureOf body = Except.ok none := by
                  unfold NestClient.targetTemperatureOf
                  rw [hTg]
                  rfl
                have h6 : Except.ok (ε := String) tgt = Except.ok none :=
                  ht2.symm.trans hT
                injection h6 with h5
                rw [← h3]
                exact h5

/-- Witness for C9: a payload reporting `ambientTemperatureCelsius = 0`
parses to a status whose `temperature` is `None`. -/
theorem nest_zero_celsius_is_null_witness :
    NestClient.cachedTokenValid 0
      ⟨none, none, none, some (Json.str "proj"), some (Json.str "tok"), none, some 100⟩
      = true ∧
    NestClient.ambientOf
      (Json.obj [("traits", Json.obj
        [("sdm.devices.traits.Temperature", Json.obj
          [("ambientTemperatureCelsius", Json.num 0)])])]) =
      Except.ok (some (Json.num 0)) ∧
    ({ temperature := none, target_temperature := none, mode := "heat",
       fan_mode := "auto", is_online := Json.bool true, humidity := none,
       raw_data := Json.obj [("traits", Json.obj
         [("sdm.devices.traits.Temperature", Json.obj
           [("ambientTemperatureCelsius", Json.num 0)])])] } :
      NormalizedStatus).temperature = none :=
  ⟨rfl, rfl,
    ((nest_zero_celsius_is_null
      (fun _ => NetResult.resp 200
        (Json.obj [("traits", Json.obj
          [("sdm.devices.traits.Temperature", Json.obj
            [("ambientTemperatureCelsius", Json.num 0)])])]))
      0 ⟨none, none, none, some (Json.str "proj"), some (Json.str "tok"), none, some 100⟩
      "dev"
      (Json.obj [("traits", Json.obj
        [("sdm.devices.traits.Temperature", Json.obj
          [("ambientTemperatureCelsius", Json.num 0)])])])
      rfl rfl).2
      { temperature := none, target_temperature := none, mode := "heat",
        fan_mode := "auto", is_online := Json.bool true, humidity := none,
        raw_data := Json.obj [("traits", Json.obj
          [("sdm.devices.traits.Temperature", Json.obj
            [("ambientTemperatureCelsius", Json.num 0)])])] }
      rfl).1 rfl⟩

/-- Helper: `set_temperature` under an authentication that returns `True`
without state change or requests reduces to its pre-fetch dispatch. -/
theorem NestClient.setTemperature_of_auth (net : Request → NetResult) (now : ℚ)
    (c : NestClient) (device_id : String) (t : ℚ)
    (hA : NestClient.authenticate net now c none = (true, c, [])) :
    NestClient.setTemperature net now c device_id t =
      match NestClient.getStatus net now c device_id with
      | Except.error e => Except.error e
      | Except.ok (c2, log2, none) => Except.ok (false, c2, log2)
      | Except.ok (c2, log2, some status) =>
        if status.mode = "heat" then
          Except.ok
            (postOk net (NestClient.commandRequest c2 device_id
               (NestClient.setHeatPayload (NestClient.fahrenheitToCelsius t))), c2,
             log2 ++ [NestClient.commandRequest c2 device_id
               (NestClient.setHeatPayload (NestClient.fahrenheitToCelsius t))])
        else if status.mode = "cool" then
          Except.ok
            (postOk net (NestClient.commandRequest c2 device_id
               (NestClient.setCoolPayload (NestClient.fahrenheitToCelsius t))), c2,
             log2 ++ [NestClient.commandRequest c2 device_id
               (NestClient.setCoolPayload (NestClient.fahrenheitToCelsius t))])
        else if status.mode = "auto" then
          Except.ok
            (postOk net (NestClient.commandRequest c2 device_id
               (NestClient.setRangePayload (NestClient.fahrenheitToCelsius t - 11/10)
                 (NestClient.fahrenheitToCelsius t + 11/10))), c2,
             log2 ++ [NestClient.commandRequest c2 device_id
               (NestClient.setRangePayload (NestClient.fahrenheitToCelsius t - 11/10)
                 (NestClient.fahrenheitToCelsius t + 11/10))])
        else Except.ok (false, c2, log2) := by
  unfold NestClient.setTemperature
  rw [hA]
  rfl

/-- Claim C2: under a valid cached session, `set_temperature` first issues
the status GET; a failed pre-fetch (network error, non-200, unparseable
body) aborts with `False` and no command; otherwise, with `c` the Celsius
conversion of the requested Fahrenheit value, heat mode issues exactly one
`SetHeat` with `heatCelsius = c`, cool mode one `SetCool` with
`coolCelsius = c`, auto mode one `SetRange` with `heatCelsius = c - 1.1`
and `coolCelsius = c + 1.1`, and any other mode (notably `off`) issues no
command and returns `False`. -/
theorem nest_setTemperature_spec (net : Request → NetResult) (now : ℚ)
    (c : NestClient) (device_id : String) (t : ℚ)
    (h : NestClient.cachedTokenValid now c = true) :
    (∀ m, net (NestClient.deviceGetRequest c device_id) = NetResult.exn m →
      NestClient.setTemperature net now c device_id t =
        Except.ok (false, c, [NestClient.deviceGetRequest c device_id])) ∧
    (∀ code body, net (NestClient.deviceGetRequest c device_id) = NetResult.resp code body →
      code ≠ 200 →
      NestClient.setTemperature net now c device_id t =
        Except.ok (false, c, [NestClient.deviceGetRequest c device_id])) ∧
    (∀ body e, net (NestClient.deviceGetRequest c device_id) = NetResult.resp 200 body →
      NestClient.parseStatus body = Except.error e →
      NestClient.setTemperature net now c device_id t =
        Except.ok (false, c, [NestClient.deviceGetRequest c device_id])) ∧
    (∀ body st, net (NestClient.deviceGetRequest c device_id) = NetResult.resp 200 body →
      NestClient.parseStatus body = Except.ok st →
      (st.mode = "heat" →
        NestClient.setTemperature net now c device_id t =
          Except.ok
            (postOk net (NestClient.commandRequest c device_id
               (NestClient.setHeatPayload (NestClient.fahrenheitToCelsius t))), c,
             [NestClient.deviceGetRequest c device_id,
              NestClient.commandRequest c device_id
                (NestClient.setHeatPayload (NestClient.fahrenheitToCelsius t))])) ∧
      (st.mode = "cool" →
        NestClient.setTemperature net now c device_id t =
          Except.ok
            (postOk net (NestClient.commandRequest c device_id
               (NestClient.setCoolPayload (NestClient.fahrenheitToCelsius t))), c,
             [NestClient.deviceGetRequest c device_id,
              NestClient.commandRequest c device_id
                (NestClient.setCoolPayload (NestClient.fahrenheitToCelsius t))])) ∧
      (st.mode = "auto" →
        NestClient.setTemperature net now c device_id t =
          Except.ok
            (postOk net (NestClient.commandRequest c device_id
               (NestClient.setRangePayload (NestClient.fahrenheitToCelsius t - 11/10)
                 (NestClient.fahrenheitToCelsius t + 11/10))), c,
             [NestClient.deviceGetRequest c device_id,
              NestClient.commandRequest c device_id
                (NestClient.setRangePayload (NestClient.fahrenheitToCelsius t - 11/10)
                  (NestClient.fahrenheitToCelsius t + 11/10))])) ∧
      (st.mode ≠ "heat" → st.mode ≠ "cool" → st.mode ≠ "auto" →
        NestClient.setTemperature net now c device_id t =
          Except.ok (false, c, [NestClient.deviceGetRequest c device_id]))) := by
  have hA := NestClient.authenticate_of_cached net now c none h
  have hE := NestClient.setTemperature_of_auth net now c device_id t hA
  have hG := NestClient.getStatus_of_cached net now c device_id h
  refine ⟨?_, ?_, ?_, ?_⟩
  · intro m hm
    rw [hE, hG, hm]
  · intro code body hm hcode
    rw [hE, hG, hm]
    simp [hcode]
  · intro body e hm hp
    rw [hE, hG, hm]
    simp [hp]
  · intro body st hm hp
    refine ⟨?_, ?_, ?_, ?_⟩
    · intro hmode
      rw [hE, hG, hm]
      simp [hp, hmode]
    · intro hmode
      rw [hE, hG, hm]
      simp [hp, hmode]
    · intro hmode
      rw [hE, hG, hm]
      simp [hp, hmode]
    · intro h1 h2 h3
      rw [hE, hG, hm]
      simp [hp, h1, h2, h3]

/-- Witness for C2: a cached-session client against a network that serves a
heat-mode device payload on GET and accepts the command POST; the call
issues the status GET then one `SetHeat` and succeeds. -/
theorem nest_setTemperature_spec_witness :
    NestClient.cachedTokenValid 0
      ⟨none, none, none, some (Json.str "proj"), some (Json.str "tok"), none, some 100⟩
      = true ∧
    NestClient.parseStatus
      (Json.obj [("traits", Json.obj
        [("sdm.devices.traits.ThermostatMode", Json.obj [("mode", Json.str "HEAT")])])]) =
      Except.ok
        { temperature := none, target_temperature := none, mode := "heat",
          fan_mode := "auto", is_online := Json.bool true, humidity := none,
          raw_data := Json.obj [("traits", Json.obj
            [("sdm.devices.traits.ThermostatMode", Json.obj [("mode", Json.str "HEAT")])])] } ∧
    NestClient.setTemperature
      (fun req => if req.method = "GET" then
        NetResult.resp 200 (Json.obj [("traits", Json.obj
          [("sdm.devices.traits.ThermostatMode", Json.obj [("mode", Json.str "HEAT")])])])
       else NetResult.resp 200 (Json.obj []))
      0 ⟨none, none, none, some (Json.str "proj"), some (Json.str "tok"), none, some 100⟩
      "dev" 72 =
      Except.ok
        (postOk
          (fun req => if req.method = "GET" then
            NetResult.resp 200 (Json.obj [("traits", Json.obj
              [("sdm.devices.traits.ThermostatMode", Json.obj [("mode", Json.str "HEAT")])])])
           else NetResult.resp 200 (Json.obj []))
          (NestClient.commandRequest
            ⟨none, none, none, some (Json.str "proj"), some (Json.str "tok"), none, some 100⟩
            "dev" (NestClient.setHeatPayload (NestClient.fahrenheitToCelsius 72))),
         ⟨none, none, none, some (Json.str "proj"), some (Json.str "tok"), none, some 100⟩,
         [NestClient.deviceGetRequest
            ⟨none, none, none, some (Json.str "proj"), some (Json.str "tok"), none, some 100⟩
            "dev",
          NestClient.commandRequest
            ⟨none, none, none, some (Json.str "proj"), some (Json.str "tok"), none, some 100⟩
            "dev" (NestClient.setHeatPayload (NestClient.fahrenheitToCelsius 72))]) :=
  ⟨rfl, rfl,
    ((nest_setTemperature_spec
      (fun req => if req.method = "GET" then
        NetResult.resp 200 (Json.obj [("traits", Json.obj
          [("sdm.devices.traits.ThermostatMode", Json.obj [("mode", Json.str "HEAT")])])])
       else NetResult.resp 200 (Json.obj []))
      0 ⟨none, none, none, some (Json.str "proj"), some (Json.str "tok"), none, some 100⟩
      "dev" 72 rfl).2.2.2
      (Json.obj [("traits", Json.obj
        [("sdm.devices.traits.ThermostatMode", Json.obj [("mode", Json.str "HEAT")])])])
      { temperature := none, target_temperature := none, mode := "heat",
        fan_mode := "auto", is_online := Json.bool true, humidity := none,
        raw_data := Json.obj [("traits", Json.obj
          [("sdm.devices.traits.ThermostatMode", Json.obj [("mode", Json.str "HEAT")])])] }
      rfl rfl).1 rfl⟩

/-- Claim C5: `PioneerClient.authenticate` precedence: a valid cached token
wins without any request; else a truthy device key becomes the session
token with a 30-day expiry, still without any request; else missing
username or password fails; else exactly one credential POST is issued,
caching the returned token with expiry `now + expires_in` (24h default via
`expiresInOf`) on a 200 and returning whether a token was obtained, and
failing with unchanged state on a non-200 or network error. -/
theorem pioneer_authenticate_precedence (net : Request → NetResult) (now : ℚ)
    (c : PioneerClient) :
    (PioneerClient.cachedTokenValid now c = true →
      PioneerClient.authenticate net now c = (true, c, [])) ∧
    (PioneerClient.cachedTokenValid now c = false →
      pyTruthyOpt c.device_key = true →
      PioneerClient.authenticate net now c =
        (true, { c with token := c.device_key,
                        token_expiry := some (now + 30 * 86400) }, [])) ∧
    (PioneerClient.cachedTokenValid now c = false →
      pyTruthyOpt c.device_key = false →
      (pyTruthyOpt c.username = false ∨ pyTruthyOpt c.password = false) →
      PioneerClient.authenticate net now c = (false, c, [])) ∧
    (PioneerClient.cachedTokenValid now c = false →
      pyTruthyOpt c.device_key = false →
      pyTruthyOpt c.username = true → pyTruthyOpt c.password = true →
      (PioneerClient.authenticate net now c).2.2 = [PioneerClient.authRequest c] ∧
      (∀ m, net (PioneerClient.authRequest c) = NetResult.exn m →
        PioneerClient.authenticate net now c =
          (false, c, [PioneerClient.authRequest c])) ∧
      (∀ code body, net (PioneerClient.authRequest c) = NetResult.resp code body →
        code ≠ 200 →
        PioneerClient.authenticate net now c =
          (false, c, [PioneerClient.authRequest c])) ∧
      (∀ body tok ei, net (PioneerClient.authRequest c) = NetResult.resp 200 body →
        jGet body "token" = Except.ok tok →
        PioneerClient.expiresInOf body = Except.ok ei →
        PioneerClient.authenticate net now c =
          (pyTruthyOpt tok,
           { c with token := tok, token_expiry := some (now + ei) },
           [PioneerClient.authRequest c]))) := by
  refine ⟨?_, ?_, ?_, ?_⟩
  · intro h
    unfold PioneerClient.authenticate
    rw [h]
    simp
  · intro hc hdk
    unfold PioneerClient.authenticate
    rw [hc, hdk]
    simp
  · intro hc hdk hup
    unfold PioneerClient.authenticate
    rw [hc, hdk]
    rcases hup with h | h <;> simp [h]
  · intro hc hdk hu hp
    have hA : PioneerClient.authenticate net now c =
        match net (PioneerClient.authRequest c) with
        | NetResult.exn _ => (false, c, [PioneerClient.authRequest c])
        | NetResult.resp code body =>
          if code = 200 then
            match jGet body "token" with
            | Except.error _ => (false, c, [PioneerClient.authRequest c])
            | Except.ok tok =>
              match PioneerClient.expiresInOf body with
              | Except.error _ =>
                (false, { c with token := tok }, [PioneerClient.authRequest c])
              | Except.ok ei =>
                (pyTruthyOpt tok,
                 { c with token := tok, token_expiry := some (now + ei) },
                 [PioneerClient.authRequest c])
          else (false, c, [PioneerClient.authRequest c]) := by
      unfold PioneerClient.authenticate
      rw [hc, hdk, hu, hp]
      simp
    refine ⟨?_, ?_, ?_, ?_⟩
    · rw [hA]
      repeat' split
      all_goals rfl
    · intro m hm
      rw [hA, hm]
    · intro code body hm hcode
      rw [hA, hm]
      simp [hcode]
    · intro body tok ei hm htok hei
      rw [hA, hm]
      simp [htok, hei]

/-- Witness for C5: a client holding only `device_key="dk1"` authenticates
without network traffic, its token becoming the device key with a 30-day
expiry (the spec's end-to-end scenario). -/
theorem pioneer_authenticate_precedence_witness :
    PioneerClient.cachedTokenValid 0
      ⟨none, none, some (Json.str "dk1"), none, none⟩ = false ∧
    pyTruthyOpt (some (Json.str "dk1")) = true ∧
    PioneerClient.authenticate (fun _ => NetResult.exn "network down") 0
      ⟨none, none, some (Json.str "dk1"), none, none⟩ =
      (true, ⟨none, none, some (Json.str "dk1"), some (Json.str "dk1"),
              some ((0 : ℚ) + 30 * 86400)⟩, []) :=
  ⟨rfl, rfl,
    (pioneer_authenticate_precedence (fun _ => NetResult.exn "network down") 0
      ⟨none, none, some (Json.str "dk1"), none, none⟩).2.1 rfl rfl⟩

/-- Claim C6: `create_client` is a pure dispatch: every tag other than
`NEST`, `CIELO`, `PIONEER` raises the typed unsupported-vendor error (no
silent default), and each supported tag builds the matching client variant
directly from the keyword dict, with an empty session and no I/O (the
function does not consult a network oracle at all). -/
theorem factory_create_client_spec (tp : String) (kwargs : List (String × Json)) :
    (tp ≠ "NEST" → tp ≠ "CIELO" → tp ≠ "PIONEER" →
      ThermostatClientFactory.createClient tp kwargs =
        Except.error ("Unsupported thermostat type: " ++ tp)) ∧
    ThermostatClientFactory.createClient "NEST" kwargs =
      Except.ok (ThermostatClient.nest
        { client_id := kwGet kwargs "client_id"
          client_secret := kwGet kwargs "client_secret"
          redirect_uri := kwGet kwargs "redirect_uri"
          project_id := kwGet kwargs "project_id"
          access_token := kwGet kwargs "access_token"
          refresh_token := kwGet kwargs "refresh_token"
          token_expiry := none }) ∧
    ThermostatClientFactory.createClient "CIELO" kwargs =
      Except.ok (ThermostatClient.cielo
        { username := kwGet kwargs "username"
          password := kwGet kwargs "password"
          token := kwGet kwargs "token"
          token_expiry := none }) ∧
    ThermostatClientFactory.createClient "PIONEER" kwargs =
      Except.ok (ThermostatClient.pioneer
        { username := kwGet kwargs "username"
          password := kwGet kwargs "password"
          device_key := kwGet kwargs "device_key"
          token := none
          token_expiry := none }) := by
  refine ⟨?_, rfl, rfl, rfl⟩
  intro h1 h2 h3
  unfold ThermostatClientFactory.createClient
  simp [h1, h2, h3]

/-- Witness for C6: the tag `"UNKNOWN"` raises the typed error. -/
theorem factory_create_client_spec_witness :
    ("UNKNOWN" : String) ≠ "NEST" ∧ ("UNKNOWN" : String) ≠ "CIELO" ∧
    ("UNKNOWN" : String) ≠ "PIONEER" ∧
    ThermostatClientFactory.createClient "UNKNOWN" [] =
      Except.error ("Unsupported thermostat type: " ++ "UNKNOWN") :=
  ⟨by decide, by decide, by decide,
    (factory_create_client_spec "UNKNOWN" []).1 (by decide) (by decide) (by decide)⟩

/-- Claim C1 (amended): for both the Nest and the Pioneer client,
`get_status` raises `"Not authenticated"` exactly when `authenticate()`
returns `False`; when authentication succeeds it never raises: it issues
the auth requests followed by one device GET and returns the authenticated
state together with `None` on a raised network error, a non-200 (not-found)
response, or an unparseable payload, and the parsed normalized status dict
on a 200 response that parses. -/
theorem getStatus_raises_iff_auth_fails (net : Request → NetResult) (now : ℚ)
    (cn : NestClient) (cp : PioneerClient) (device_id : String) :
    (∀ c1 log1, NestClient.authenticate net now cn none = (false, c1, log1) →
      NestClient.getStatus net now cn device_id =
        Except.error "Not authenticated") ∧
    (∀ c1 log1, NestClient.authenticate net now cn none = (true, c1, log1) →
      (∀ m, net (NestClient.deviceGetRequest c1 device_id) = NetResult.exn m →
        NestClient.getStatus net now cn device_id =
          Except.ok (c1, log1 ++ [NestClient.deviceGetRequest c1 device_id], none)) ∧
      (∀ code body,
        net (NestClient.deviceGetRequest c1 device_id) = NetResult.resp code body →
        code ≠ 200 →
        NestClient.getStatus net now cn device_id =
          Except.ok (c1, log1 ++ [NestClient.deviceGetRequest c1 device_id], none)) ∧
      (∀ body e,
        net (NestClient.deviceGetRequest c1 device_id) = NetResult.resp 200 body →
        NestClient.parseStatus body = Except.error e →
        NestClient.getStatus net now cn device_id =
          Except.ok (c1, log1 ++ [NestClient.deviceGetRequest c1 device_id], none)) ∧
      (∀ body st,
        net (NestClient.deviceGetRequest c1 device_id) = NetResult.resp 200 body →
        NestClient.parseStatus body = Except.ok st →
        NestClient.getStatus net now cn device_id =
          Except.ok (c1, log1 ++ [NestClient.deviceGetRequest c1 device_id], some st))) ∧
    (∀ c1 log1, PioneerClient.authenticate net now cp = (false, c1, log1) →
      PioneerClient.getStatus net now cp device_id =
        Except.error "Not authenticated") ∧
    (∀ c1 log1, PioneerClient.authenticate net now cp = (true, c1, log1) →
      (∀ m, net (PioneerClient.statusRequest device_id) = NetResult.exn m →
        PioneerClient.getStatus net now cp device_id =
          Except.ok (c1, log1 ++ [PioneerClient.statusRequest device_id], none)) ∧
      (∀ code body,
        net (PioneerClient.statusRequest device_id) = NetResult.resp code body →
        code ≠ 200 →
        PioneerClient.getStatus net now cp device_id =
          Except.ok (c1, log1 ++ [PioneerClient.statusRequest device_id], none)) ∧
      (∀ body e,
        net (PioneerClient.statusRequest device_id) = NetResult.resp 200 body →
        PioneerClient.parseStatus body = Except.error e →
        PioneerClient.getStatus net now cp device_id =
          Except.ok (c1, log1 ++ [PioneerClient.statusRequest device_id], none)) ∧
      (∀ body st,
        net (PioneerClient.statusRequest device_id) = NetResult.resp 200 body →
        PioneerClient.parseStatus body = Except.ok st →
        PioneerClient.getStatus net now cp device_id =
          Except.ok (c1, log1 ++ [PioneerClient.statusRequest device_id], some st))) := by
  refine ⟨?_, ?_, ?_, ?_⟩
  · intro c1 log1 hA
    unfold NestClient.getStatus
    rw [hA]
  · intro c1 log1 hA
    refine ⟨?_, ?_, ?_, ?_⟩
    · intro m hm
      unfold NestClient.getStatus
      rw [hA]
      simp [hm]
    · intro code body hm hcode
      unfold NestClient.getStatus
      rw [hA]
      simp [hm, hcode]
    · intro body e hm hp
      unfold NestClient.getStatus
      rw [hA]
      simp [hm, hp]
    · intro body st hm hp
      unfold NestClient.getStatus
      rw [hA]
      simp [hm, hp]
  · intro c1 log1 hA
    unfold PioneerClient.getStatus
    rw [hA]
  · intro c1 log1 hA
    refine ⟨?_, ?_, ?_, ?_⟩
    · intro m hm
      unfold PioneerClient.getStatus
      rw [hA]
      simp [hm]
    · intro code body hm hcode
      unfold PioneerClient.getStatus
      rw [hA]
      simp [hm, hcode]
    · intro body e hm hp
      unfold PioneerClient.getStatus
      rw [hA]
      simp [hm, hp]
    · intro body st hm hp
      unfold PioneerClient.getStatus
      rw [hA]
      simp [hm, hp]

/-- Witness for C1's amended theorem: a cached-session Nest client against
a network serving 200 with an empty-object payload gets the parsed status
dict, while a credential-less Pioneer client on the same network fails
authentication and `get_status` raises. -/
theorem getStatus_raises_iff_auth_fails_witness :
    NestClient.authenticate (fun _ => NetResult.resp 200 (Json.obj [])) 0
      ⟨none, none, none, some (Json.str "proj"), some (Json.str "tok"), none, some 100⟩
      none =
      (true,
       ⟨none, none, none, some (Json.str "proj"), some (Json.str "tok"), none, some 100⟩,
       []) ∧
    NestClient.parseStatus (Json.obj []) =
      Except.ok
        { temperature := none, target_temperature := none, mode := "heat",
          fan_mode := "auto", is_online := Json.bool true, humidity := none,
          raw_data := Json.obj [] } ∧
    NestClient.getStatus (fun _ => NetResult.resp 200 (Json.obj [])) 0
      ⟨none, none, none, some (Json.str "proj"), some (Json.str "tok"), none, some 100⟩
      "dev" =
      Except.ok
        (⟨none, none, none, some (Json.str "proj"), some (Json.str "tok"), none, some 100⟩,
         [NestClient.deviceGetRequest
            ⟨none, none, none, some (Json.str "proj"), some (Json.str "tok"), none, some 100⟩
            "dev"],
         some { temperature := none, target_temperature := none, mode := "heat",
                fan_mode := "auto", is_online := Json.bool true, humidity := none,
                raw_data := Json.obj [] }) ∧
    PioneerClient.authenticate (fun _ => NetResult.resp 200 (Json.obj [])) 0
      ⟨none, none, none, none, none⟩ =
      (false, ⟨none, none, none, none, none⟩, []) ∧
    PioneerClient.getStatus (fun _ => NetResult.resp 200 (Json.obj [])) 0
      ⟨none, none, none, none, none⟩ "dev" =
      Except.error "Not authenticated" :=
  ⟨rfl, rfl,
    ((getStatus_raises_iff_auth_fails (fun _ => NetResult.resp 200 (Json.obj [])) 0
      ⟨none, none, none, some (Json.str "proj"), some (Json.str "tok"), none, some 100⟩
      ⟨none, none, none, none, none⟩ "dev").2.1
      ⟨none, none, none, some (Json.str "proj"), some (Json.str "tok"), none, some 100⟩
      [] rfl).2.2.2 (Json.obj [])
      { temperature := none, target_temperature := none, mode := "heat",
        fan_mode := "auto", is_online := Json.bool true, humidity := none,
        raw_data := Json.obj [] }
      rfl rfl,
   rfl,
    (getStatus_raises_iff_auth_fails (fun _ => NetResult.resp 200 (Json.obj [])) 0
      ⟨none, none, none, some (Json.str "proj"), some (Json.str "tok"), none, some 100⟩
      ⟨none, none, none, none, none⟩ "dev").2.2.1
      ⟨none, none, none, none, none⟩ [] rfl⟩

/-- Counterexample to C1 as stated: a Nest client with no credentials at
all fails `authenticate()`, and `get_status` then raises the
`"Not authenticated"` exception to its caller instead of returning `None`. -/
theorem getStatus_auth_failure_raises_counterexample :
    NestClient.getStatus (fun _ => NetResult.exn "network down") 0
      ⟨none, none, none, none, none, none, none⟩ "device-1" =
      Except.error "Not authenticated" := rfl

/-- Witness for C4: a client with only refresh token `"r"`, against a
network answering 200 with a new token and `expires_in = 100`, refreshes in
one call and lands at expiry `0 + 100`. -/
theorem nest_authenticate_refresh_spec_witness :
    NestClient.cachedTokenValid 0
      ⟨none, none, none, none, none, some (Json.str "r"), none⟩ = false ∧
    pyTruthyOpt (some (Json.str "r")) = true ∧
    NestClient.authenticate
      (fun _ => NetResult.resp 200
        (Json.obj [("access_token", Json.str "t2"), ("expires_in", Json.num 100)]))
      0 ⟨none, none, none, none, none, some (Json.str "r"), none⟩ none
      = (pyTruthyOpt (some (Json.str "t2")),
         { (⟨none, none, none, none, none, some (Json.str "r"), none⟩ : NestClient) with
             access_token := some (Json.str "t2"), token_expiry := some ((0 : ℚ) + 100) },
         [NestClient.refreshRequest
            ⟨none, none, none, none, none, some (Json.str "r"), none⟩]) :=
  ⟨rfl, rfl,
    (nest_authenticate_refresh_spec
      (fun _ => NetResult.resp 200
        (Json.obj [("access_token", Json.str "t2"), ("expires_in", Json.num 100)]))
      0 ⟨none, none, none, none, none, some (Json.str "r"), none⟩ none rfl rfl).2.2.2
      (Json.obj [("access_token", Json.str "t2"), ("expires_in", Json.num 100)])
      (some (Json.str "t2")) 100 rfl rfl rfl⟩

/-- Helper: `credentials.get(k)` on a parsed JSON object is total and yields
the stored value, or `None` for an absent key. -/
theorem credGet_obj (fs : List (String × Json)) (k : String) :
    credGet (Json.obj fs) k = Except.ok ((Json.lookupField fs k).getD Json.null) := by
  unfold credGet
  cases h : Json.lookupField fs k <;> simp [h]

/-- Helper: `getattr(settings, name, credentials.get(k))` on a parsed JSON
object: a configured setting wins, otherwise the stored value (or `None`). -/
theorem settingsOrCred_obj (settings : List (String × Json)) (n : String)
    (fs : List (String × Json)) (k : String) :
    settingsOrCred settings n (Json.obj fs) k =
      Except.ok ((settingsGet settings n).getD
        ((Json.lookupField fs k).getD Json.null)) := by
  unfold settingsOrCred
  cases h : settingsGet settings n <;> simp [h, credGet_obj]

/-- Claim C7 (amended): for any nonempty stored credential string the
resolver attempts a JSON parse and treats a parse failure as
`{"token": <string>}` without raising (an empty or missing credential
string instead yields empty credentials); and in the resolved kwargs the
configured settings win over per-device stored values for the shared
secrets (client id/secret, redirect URI, project id) while access and
refresh tokens always come from the stored credential. -/
theorem credential_resolver_spec (settings : List (String × Json))
    (jsonLoads : String → Option Json) (s t : String) (fs : List (String × Json))
    (hs : s ≠ "") (hfail : jsonLoads s = none)
    (ht : t ≠ "") (hok : jsonLoads t = some (Json.obj fs)) :
    getClientKwargs settings jsonLoads "CIELO" (some s) =
      Except.ok [("username", Json.null), ("password", Json.null),
                 ("token", Json.str s)] ∧
    getClientKwargs settings jsonLoads "NEST" (some t) =
      Except.ok
        [("client_id", (settingsGet settings "NEST_CLIENT_ID").getD
            ((Json.lookupField fs "client_id").getD Json.null)),
         ("client_secret", (settingsGet settings "NEST_CLIENT_SECRET").getD
            ((Json.lookupField fs "client_secret").getD Json.null)),
         ("redirect_uri", (settingsGet settings "NEST_REDIRECT_URI").getD
            ((Json.lookupField fs "redirect_uri").getD Json.null)),
         ("project_id", (settingsGet settings "NEST_PROJECT_ID").getD
            ((Json.lookupField fs "project_id").getD Json.null)),
         ("access_token", (Json.lookupField fs "access_token").getD Json.null),
         ("refresh_token", (Json.lookupField fs "refresh_token").getD Json.null)] := by
  constructor
  · have hp : pyTruthyStr (some s) = true := by simp [pyTruthyStr, hs]
    unfold getClientKwargs
    simp only [Option.getD_some]
    rw [hp, hfail]
    rfl
  · have hp : pyTruthyStr (some t) = true := by simp [pyTruthyStr, ht]
    unfold getClientKwargs
    simp only [Option.getD_some]
    rw [hp, hok]
    simp only [if_true, settingsOrCred_obj, credGet_obj]
    rfl

/-- Witness for C7: the non-JSON string `"raw"` becomes `token="raw"`, and
with `NEST_CLIENT_ID` configured as `"cfg"` the stored `"stored"` value is
overridden while the stored access token survives. -/
theorem credential_resolver_spec_witness :
    (("raw" : String) ≠ "") ∧
    getClientKwargs [("NEST_CLIENT_ID", Json.str "cfg")]
      (fun x => if x = "J" then
        some (Json.obj [("client_id", Json.str "stored"),
                        ("access_token", Json.str "at")])
       else none)
      "CIELO" (some "raw") =
      Except.ok [("username", Json.null), ("password", Json.null),
                 ("token", Json.str "raw")] ∧
    getClientKwargs [("NEST_CLIENT_ID", Json.str "cfg")]
      (fun x => if x = "J" then
        some (Json.obj [("client_id", Json.str "stored"),
                        ("access_token", Json.str "at")])
       else none)
      "NEST" (some "J") =
      Except.ok
        [("client_id", Json.str "cfg"), ("client_secret", Json.null),
         ("redirect_uri", Json.null), ("project_id", Json.null),
         ("access_token", Json.str "at"), ("refresh_token", Json.null)] := by
  refine ⟨by decide, ?_, ?_⟩
  · exact (credential_resolver_spec [("NEST_CLIENT_ID", Json.str "cfg")]
      (fun x => if x = "J" then
        some (Json.obj [("client_id", Json.str "stored"),
                        ("access_token", Json.str "at")])
       else none)
      "raw" "J"
      [("client_id", Json.str "stored"), ("access_token", Json.str "at")]
      (by decide) rfl (by decide) rfl).1
  · exact (credential_resolver_spec [("NEST_CLIENT_ID", Json.str "cfg")]
      (fun x => if x = "J" then
        some (Json.obj [("client_id", Json.str "stored"),
                        ("access_token", Json.str "at")])
       else none)
      "raw" "J"
      [("client_id", Json.str "stored"), ("access_token", Json.str "at")]
      (by decide) rfl (by decide) rfl).2

/-- Counterexample to C7 as stated: for the empty credential string (which
fails a JSON parse) the resolver does not produce `token = ""`; the
truthiness guard skips the fallback entirely and the resolved token is
`None`, not the empty string the claim's rule prescribes. -/
theorem credential_resolver_empty_counterexample :
    getClientKwargs [] (fun _ => none) "CIELO" (some "") =
      Except.ok [("username", Json.null), ("password", Json.null),
                 ("token", Json.null)] ∧
    Json.null ≠ Json.str "" :=
  ⟨rfl, fun h => Json.noConfusion h⟩
